import Mathlib

/-! Overview

# Verification of the local-supermemory server core

Shallow embedding of `src/server.js` (a local Supermemory clone: an
Express/SQLite memory store).  The two SQLite tables `memories` and
`profile_facts` are modelled as Lean lists of rows; SQL timestamps
(ISO-8601 strings, whose lexicographic order is chronological) are
modelled as naturals; JavaScript floating-point scores are idealised as
real numbers.  Case folding and the `\w`/`\s` character classes of the
JS regexes are ASCII, exactly as Lean's `Char.toLower`, `Char.isAlphanum`
and `Char.isWhitespace` implement them.  Text processing is carried out
on `List Char` (via `String.toList`/`String.mk`) so that every
definition evaluates by kernel reduction.
-/

namespace LocalSupermemory

/-! Section: Tokenizer (`tokenize`, src/server.js lines 91-96)

`text.toLowerCase().replace(/[^\w\s]/g, ' ').split(/\s+/).filter(t => t.length > 2)`.
Splitting at every single whitespace character (instead of at maximal
whitespace runs) produces extra empty pieces, but the length-`> 2` filter
removes them either way, so the two splittings agree after the filter. -/

/-- JS `\w` character class: letters, digits, underscore (ASCII). -/
def isWordChar (c : Char) : Bool := c.isAlphanum || c = '_'

/-- One character of `replace(/[^\w\s]/g, ' ')`. -/
def normalizeChar (c : Char) : Char :=
  if isWordChar c || c.isWhitespace then c else ' '

/-- Split a character list at every character satisfying `p` (the
delimiter characters are dropped; empty segments are kept, as with the
JS `split` against single-character matches). -/
def splitList (p : Char → Bool) : List Char → List (List Char)
  | [] => [[]]
  | c :: cs =>
    if p c then [] :: splitList p cs
    else
      match splitList p cs with
      | s :: ss => (c :: s) :: ss
      | [] => [[c]]

/-- Function `tokenize` from src/server.js; tokens are character lists. -/
def tokenize (text : String) : List (List Char) :=
  (splitList Char.isWhitespace
      ((text.toList.map Char.toLower).map normalizeChar)).filter
    (fun t => t.length > 2)

/-! Section: Substring containment (JS `String.prototype.includes`) -/

/-- Predicate `leadsWith needle hay`: `needle` occurs at the start of `hay`. -/
def leadsWith : List Char → List Char → Bool
  | [], _ => true
  | _ :: _, [] => false
  | a :: as, b :: bs => a = b && leadsWith as bs

/-- Predicate `hasSubstr hay needle`: `needle` occurs contiguously in `hay`
(JS `hay.includes(needle)`). -/
def hasSubstr (hay needle : List Char) : Bool :=
  hay.tails.any (fun t => leadsWith needle t)

/-! Section: Relevance scorer (`computeSimilarity`, src/server.js lines 98-114) -/

/-- Function `computeSimilarity` from src/server.js.  `new Set(tokenize(query))` is
modelled by `List.dedup` (only its size and membership are used);
`Math.sqrt` by `Real.sqrt`; the score is a real number.  The JS local
`matches` is spelled `matchCount` (`matches` is a Lean keyword). -/
noncomputable def computeSimilarity (query content : String) : ℝ :=
  let queryTokens := (tokenize query).dedup
  let contentTokens := tokenize content
  if queryTokens.length = 0 ∨ contentTokens.length = 0 then 0
  else
    let matchCount := (contentTokens.filter (fun t => queryTokens.contains t)).length
    let baseScore : ℝ :=
      (matchCount : ℝ) / Real.sqrt ((queryTokens.length : ℝ) * (contentTokens.length : ℝ))
    let exactBoost : ℝ :=
      if hasSubstr (content.toList.map Char.toLower) (query.toList.map Char.toLower)
      then 0.3 else 0
    min 1 (baseScore + exactBoost)

/-! Section: Fact extractor (`extractFacts`, src/server.js lines 117-140) -/

/-- A sentence delimiter of the split regex `/[.!?]+/`.  Splitting at
every single delimiter (instead of at maximal runs) only adds empty
segments, removed by the length-`> 10` filter. -/
def isSentenceDelim (c : Char) : Bool := c = '.' || c = '!' || c = '?'

/-- JS `String.prototype.trim`: drop whitespace from both ends. -/
def trimList (l : List Char) : List Char :=
  ((l.dropWhile Char.isWhitespace).reverse.dropWhile Char.isWhitespace).reverse

/-- One alternation pattern such as `/i (?:prefer|like|...)/i`: the
case-insensitive test holds iff the lowercased text contains one of the
literal alternatives as a substring. -/
def testPattern (lits : List String) (s : List Char) : Bool :=
  lits.any (fun lit => hasSubstr (s.map Char.toLower) lit.toList)

/-- The ordered `preferencePatterns` list from src/server.js. -/
def preferencePatterns : List (List Char → Bool) :=
  [ testPattern ["i prefer", "i like", "i love", "i want", "i need", "i use"],
    testPattern ["my favorite", "my preferred", "my default"],
    testPattern ["i always", "i never", "i usually", "i often"],
    testPattern ["remember that", "remember to"] ]

/-- Function `extractFacts` from src/server.js: split on sentence delimiters, keep
segments whose trimmed form is longer than 10 characters, and for each
such segment push its trimmed form once if some pattern matches (the JS
inner loop breaks at the first matching pattern, so a segment contributes
at most one fact). -/
def extractFacts (content : String) : List String :=
  let sentences := (splitList isSentenceDelim content.toList).filter
    (fun s => (trimList s).length > 10)
  sentences.filterMap (fun sentence =>
    let trimmed := trimList sentence
    if preferencePatterns.any (fun pat => pat trimmed) then some (String.mk trimmed)
    else none)

/-! Section: Data model (tables `memories` and `profile_facts`, src/server.js lines 35-62) -/

/-- A row of the `memories` table. -/
structure MemoryRow where
  id : String
  containerTag : String
  content : String
  metadata : Option String
  customId : Option String
  createdAt : Nat
  updatedAt : Nat
  forgottenAt : Option Nat
deriving DecidableEq, Repr

/-- A row of the `profile_facts` table (`fact_type` is `"dynamic"` or
`"static"`). -/
structure FactRow where
  id : String
  containerTag : String
  fact : String
  factType : String
  createdAt : Nat
  updatedAt : Nat
deriving DecidableEq, Repr

/-- The SQLite database: the two tables, each as a list of rows in
insertion order. -/
structure DB where
  memories : List MemoryRow
  facts : List FactRow
deriving DecidableEq, Repr

/-- The empty database. -/
def emptyDB : DB := ⟨[], []⟩

/-! Section: JS truthiness plumbing for request fields -/

/-- JS truthiness of an optional string field: absent and `""` are falsy. -/
def truthy : Option String → Bool
  | none => false
  | some s => s ≠ ""

/-- JS `a || b` on an optional string and a fallback value. -/
def orTruthy : Option String → String → String
  | some s, d => if s = "" then d else s
  | none, d => d

/-- JS `containerTags?.[0]`. -/
def headOpt : Option (List String) → Option String
  | some (s :: _) => some s
  | _ => none

/-- Resolution `containerTag || containerTags?.[0] || 'default'` (src/server.js
lines 153 and 202). -/
def resolveTag (ct : Option String) (cts : Option (List String)) : String :=
  orTruthy ct (orTruthy (headOpt cts) "default")

/-- A SQL comparison `column = ?` where the bound parameter may be the JS
`undefined` (bound as NULL): a NULL comparison never holds. -/
def tagMatches (col : String) : Option String → Bool
  | some t => col = t
  | none => false

/-! Section: SQL SELECT helpers

`ORDER BY created_at DESC` is insertion sort under `b.createdAt ≤
a.createdAt` (a stable descending sort; SQLite leaves the order of equal
timestamps unspecified, and this model fixes it to table order). -/

/-- Descending recency order on memory rows. -/
def createdDesc (a b : MemoryRow) : Prop := b.createdAt ≤ a.createdAt

instance : DecidableRel createdDesc := fun a b => Nat.decLe b.createdAt a.createdAt

instance : IsTotal MemoryRow createdDesc :=
  ⟨fun a b => le_total b.createdAt a.createdAt⟩

instance : IsTrans MemoryRow createdDesc :=
  ⟨fun _ _ _ h1 h2 => le_trans h2 h1⟩

/-- A memory row is active in container `tag`:
`container_tag = ? AND forgotten_at IS NULL`. -/
def activeIn (tag : String) (m : MemoryRow) : Bool :=
  m.containerTag = tag && m.forgottenAt = none

/-- Query `SELECT ... FROM memories WHERE container_tag = ? AND forgotten_at IS
NULL ORDER BY created_at DESC LIMIT n`. -/
def selectActiveDesc (db : DB) (tag : String) (n : Nat) : List MemoryRow :=
  ((db.memories.filter (activeIn tag)).insertionSort createdDesc).take n

/-! Section: Search endpoint (`POST /api/v1/search/memories`, src/server.js
lines 198-244) -/

/-- One entry of the search response `results` array. -/
structure SearchResult where
  id : String
  memory : String
  similarity : ℝ
  metadata : Option String
  createdAt : Nat
  updatedAt : Nat

/-- Descending similarity order: the JS comparator
`(a, b) => b.similarity - a.similarity` (a stable descending sort). -/
def simDesc (a b : SearchResult) : Prop := b.similarity ≤ a.similarity

noncomputable instance : DecidableRel simDesc :=
  fun a b => Real.decidableLE b.similarity a.similarity

instance : IsTotal SearchResult simDesc :=
  ⟨fun a b => le_total b.similarity a.similarity⟩

instance : IsTrans SearchResult simDesc :=
  ⟨fun _ _ _ h1 h2 => le_trans h2 h1⟩

/-- The scored record built from a memory row (src/server.js lines
223-230). -/
noncomputable def toScored (sq : String) (m : MemoryRow) : SearchResult :=
  ⟨m.id, m.content, computeSimilarity sq m.content, m.metadata, m.createdAt, m.updatedAt⟩

/-- The search pipeline on a non-empty query `sq` and resolved tag:
load the 1000 most recent active rows, score, filter `> 0.05`, stable
sort by descending similarity, truncate to `limit`. -/
noncomputable def searchCore (db : DB) (sq tag : String) (limit : Nat) :
    List SearchResult :=
  let memories := selectActiveDesc db tag 1000
  ((((memories.map (toScored sq)).filter
      (fun r => 0.05 < r.similarity)).insertionSort simDesc).take limit)

/-- The search response body. -/
structure SearchResponse where
  results : List SearchResult
  total : Nat

/-- Endpoint `POST /api/v1/search/memories`: resolve `q || query` and the
container tag; an absent/empty query short-circuits to an empty
response; `total` is `results.length`. -/
noncomputable def searchEndpoint (db : DB) (q query ct : Option String)
    (cts : Option (List String)) (limit : Nat) : SearchResponse :=
  let sq := if truthy q then q else query
  let tag := resolveTag ct cts
  match sq with
  | none => ⟨[], 0⟩
  | some s =>
    if s = "" then ⟨[], 0⟩
    else
      let results := searchCore db s tag limit
      ⟨results, results.length⟩

/-! Section: Profile endpoint, query branch (`GET /api/v1/profile`,
src/server.js lines 272-292) -/

/-- One entry of the profile search results. -/
structure ProfileHit where
  memory : String
  similarity : ℝ
  updatedAt : Nat

/-- Descending similarity order on profile hits. -/
def simDescP (a b : ProfileHit) : Prop := b.similarity ≤ a.similarity

noncomputable instance : DecidableRel simDescP :=
  fun a b => Real.decidableLE b.similarity a.similarity

instance : IsTotal ProfileHit simDescP :=
  ⟨fun a b => le_total b.similarity a.similarity⟩

instance : IsTrans ProfileHit simDescP :=
  ⟨fun _ _ _ h1 h2 => le_trans h2 h1⟩

/-- The profile query branch: load the 500 most recent active rows of
the container, score against `q`, keep scores `> threshold`
(`parseFloat(threshold)`, default 0.1, modelled as a real parameter),
stable sort descending, truncate to 10. -/
noncomputable def profileSearch (db : DB) (tag q : String) (threshold : ℝ) :
    List ProfileHit :=
  let memories := selectActiveDesc db tag 500
  ((((memories.map (fun m =>
        ⟨m.content, computeSimilarity q m.content, m.updatedAt⟩)).filter
      (fun r => threshold < r.similarity)).insertionSort simDescP).take 10)

/-! Section: Add endpoint (`POST /api/v1/add`, src/server.js lines 150-195) -/

/-- Response of `POST /api/v1/add`. -/
inductive AddResponse where
  | ok (id : String)
  | badRequest (msg : String)
deriving DecidableEq, Repr

/-- Endpoint `POST /api/v1/add`: reject a missing/empty `content` with 400;
otherwise insert one memory row and one `dynamic` fact row per extracted
fact.  `newId` stands for the generated UUID of the memory and
`factId i` for the UUID of the `i`-th fact row; `now` is the shared
timestamp. -/
def addEndpoint (db : DB) (content ct : Option String)
    (cts : Option (List String)) (metadata customId : Option String)
    (newId : String) (factId : Nat → String) (now : Nat) : DB × AddResponse :=
  let tag := resolveTag ct cts
  if truthy content = false then (db, .badRequest "Content is required")
  else
    let c := content.getD ""
    let row : MemoryRow := ⟨newId, tag, c, metadata, customId, now, now, none⟩
    let factRows := (extractFacts c).enum.map (fun p =>
      (⟨factId p.1, tag, p.2, "dynamic", now, now⟩ : FactRow))
    (⟨db.memories ++ [row], db.facts ++ factRows⟩, .ok newId)

/-! Section: Forget endpoint (`POST /api/v1/memories/forget`, src/server.js
lines 311-341) -/

/-- Response of `POST /api/v1/memories/forget`. -/
inductive ForgetResponse where
  | ok (id : String) (forgotten : Bool)
  | badRequest (msg : String)
deriving DecidableEq, Repr

/-- Statement `UPDATE memories SET forgotten_at = ? WHERE id = ? AND container_tag
= ?` (no `forgotten_at IS NULL` guard); returns the new table and the
SQLite `changes` count (rows matched by the WHERE clause). -/
def forgetById (db : DB) (id : String) (ct : Option String) (now : Nat) :
    DB × Nat :=
  let hit := fun (m : MemoryRow) => m.id = id && tagMatches m.containerTag ct
  (⟨db.memories.map (fun m => if hit m then { m with forgottenAt := some now } else m),
     db.facts⟩,
   (db.memories.filter hit).length)

/-- Statement `UPDATE memories SET forgotten_at = ? WHERE content = ? AND
container_tag = ? AND forgotten_at IS NULL`. -/
def forgetByContent (db : DB) (content : String) (ct : Option String)
    (now : Nat) : DB × Nat :=
  let hit := fun (m : MemoryRow) =>
    m.content = content && tagMatches m.containerTag ct && m.forgottenAt = none
  (⟨db.memories.map (fun m => if hit m then { m with forgottenAt := some now } else m),
     db.facts⟩,
   (db.memories.filter hit).length)

/-- Endpoint `POST /api/v1/memories/forget`.  The `id` branch ignores the
`changes` count and always answers `forgotten: true`; the `content`
branch answers `forgotten: changes > 0`. -/
def forgetEndpoint (db : DB) (ct id content : Option String) (now : Nat) :
    DB × ForgetResponse :=
  if truthy id then
    let (db', _) := forgetById db (id.getD "") ct now
    (db', .ok (id.getD "") true)
  else if truthy content then
    let (db', changes) := forgetByContent db (content.getD "") ct now
    (db', .ok "content-match" (changes > 0))
  else (db, .badRequest "Either id or content is required")

/-! Section: Documents list endpoint (`POST /api/v1/documents/list`,
src/server.js lines 344-387) -/

/-- One entry of the documents list. -/
structure DocRow where
  id : String
  content : String
  createdAt : Nat
  updatedAt : Nat
deriving DecidableEq, Repr

/-- A memory row is active in one of `tags`:
`container_tag IN (...) AND forgotten_at IS NULL`. -/
def activeInTags (tags : List String) (m : MemoryRow) : Bool :=
  tags.contains m.containerTag && m.forgottenAt = none

/-- Endpoint `POST /api/v1/documents/list`: page `page` (1-based) of the active
rows of the given containers in descending recency order, plus the total
active count.  `LIMIT ? OFFSET ?` is drop-then-take. -/
def listDocuments (db : DB) (cts : Option (List String)) (limit page : Nat) :
    List DocRow × Nat :=
  let tags := cts.getD ["default"]
  let offset := (page - 1) * limit
  let sorted := (db.memories.filter (activeInTags tags)).insertionSort createdDesc
  (((sorted.drop offset).take limit).map
      (fun m => ⟨m.id, m.content, m.createdAt, m.updatedAt⟩),
   (db.memories.filter (activeInTags tags)).length)

/-! Section: Bulk delete endpoint (`POST /api/v1/documents/deleteBulk`,
src/server.js lines 390-411) -/

/-- The `ids` field of a deleteBulk request body: absent, present but
not an array, or an array. -/
inductive IdsField where
  | missing
  | notArray
  | arr (ids : List String)
deriving DecidableEq, Repr

/-- Response of `POST /api/v1/documents/deleteBulk`. -/
inductive BulkResponse where
  | ok (deleted : Nat)
  | badRequest (msg : String)
deriving DecidableEq, Repr

/-- Endpoint `POST /api/v1/documents/deleteBulk`: the check `!ids || !Array.isArray(ids)`
rejects a missing or non-array field with 400, but an *empty* array is
truthy and passes; `DELETE FROM memories WHERE id IN ()` with an empty
IN list is accepted by SQLite and matches zero rows, so the handler
answers 200 with `deleted: 0`.  An array hard-deletes the listed ids
regardless of container or forgotten state. -/
def deleteBulkEndpoint (db : DB) (ids : IdsField) : DB × BulkResponse :=
  match ids with
  | .missing => (db, .badRequest "ids array is required")
  | .notArray => (db, .badRequest "ids array is required")
  | .arr l =>
    (⟨db.memories.filter (fun m => !l.contains m.id), db.facts⟩,
     .ok (db.memories.filter (fun m => l.contains m.id)).length)

/-! Section: Promote endpoint (`POST /api/v1/profile/promote`, src/server.js
lines 414-430) -/

/-- The promote UPDATE's WHERE clause, `container_tag = ? AND fact = ?`
(note: no `fact_type` test). -/
def promoteHit (tag fact : String) (r : FactRow) : Bool :=
  r.containerTag = tag && r.fact = fact

/-- The per-row effect of the promote UPDATE. -/
def promoteUpd (tag fact : String) (now : Nat) (r : FactRow) : FactRow :=
  if promoteHit tag fact r then { r with factType := "static", updatedAt := now }
  else r

/-- Endpoint `POST /api/v1/profile/promote`: `UPDATE profile_facts SET fact_type =
'static', updated_at = ? WHERE container_tag = ? AND fact = ?`.  The
SQLite `changes` count is the number of rows matched by the WHERE clause
(whether or not any value differed), so `promoted` is true iff some row
has this tag and text, regardless of its current type. -/
def promoteEndpoint (db : DB) (tag fact : String) (now : Nat) : DB × Bool :=
  (⟨db.memories, db.facts.map (promoteUpd tag fact now)⟩,
   (db.facts.filter (promoteHit tag fact)).length > 0)

/-! Section: Stats endpoint (`GET /api/v1/stats`, src/server.js lines 433-447) -/

/-- Count `SELECT COUNT(*) FROM memories WHERE forgotten_at IS NULL`. -/
def statsMemories (db : DB) : Nat :=
  (db.memories.filter (fun m => m.forgottenAt = none)).length

/-- Count `SELECT COUNT(*) FROM profile_facts`. -/
def statsFacts (db : DB) : Nat := db.facts.length

/-! Section: Container wipe endpoint (`DELETE /api/v1/container/:tag`,
src/server.js lines 450-463) -/

/-- Hard-delete every memory and fact row of `tag`. -/
def wipeContainer (db : DB) (tag : String) : DB :=
  ⟨db.memories.filter (fun m => !(m.containerTag = tag : Bool)),
   db.facts.filter (fun r => !(r.containerTag = tag : Bool))⟩

/-! Section: Helper lemmas -/

/-- A filter of a prefix is a prefix of the filter: `(l.take n).filter p`
is `(l.filter p).take m` for some `m`. -/
theorem filter_take_exists {α : Type} (p : α → Bool) :
    ∀ (n : Nat) (l : List α), ∃ m, (l.take n).filter p = (l.filter p).take m := by
  intro n l
  induction l generalizing n with
  | nil => exact ⟨0, by simp⟩
  | cons x l ih =>
    cases n with
    | zero => exact ⟨0, by simp⟩
    | succ n =>
      obtain ⟨m, hm⟩ := ih n
      by_cases hp : p x
      · exact ⟨m + 1, by simp [List.filter_cons, hp, hm]⟩
      · exact ⟨m, by simp [List.filter_cons, hp, hm]⟩

/-- Inserting into a list leaves each similarity tie class unchanged
except for prepending the new element to its own class. -/
theorem filter_key_orderedInsert (s : ℝ) (x : SearchResult)
    (L : List SearchResult) :
    (List.orderedInsert simDesc x L).filter (fun y => y.similarity = s)
      = if x.similarity = s
        then x :: L.filter (fun y => y.similarity = s)
        else L.filter (fun y => y.similarity = s) := by
  induction L with
  | nil => by_cases hx : x.similarity = s <;> simp [List.orderedInsert, hx]
  | cons b L ih =>
    by_cases hle : simDesc x b
    · by_cases hx : x.similarity = s <;>
        simp [List.orderedInsert, hle, List.filter_cons, hx]
    · have hgt : x.similarity < b.similarity := not_le.mp hle
      by_cases hx : x.similarity = s
      · have hbs : ¬ b.similarity = s := by
          intro hb
          rw [hb, hx] at hgt
          exact lt_irrefl s hgt
        simp [List.orderedInsert, hle, List.filter_cons, hx, hbs, ih]
      · by_cases hbs : b.similarity = s <;>
          simp [List.orderedInsert, hle, List.filter_cons, hx, hbs, ih]

/-- The insertion sort by descending similarity is stable: each
similarity tie class is returned in its original order. -/
theorem filter_key_insertionSort (s : ℝ) (l : List SearchResult) :
    (List.insertionSort simDesc l).filter (fun y => y.similarity = s)
      = l.filter (fun y => y.similarity = s) := by
  induction l with
  | nil => rfl
  | cons x l ih =>
    show (List.orderedInsert simDesc x (List.insertionSort simDesc l)).filter _ = _
    rw [filter_key_orderedInsert, List.filter_cons]
    by_cases hx : x.similarity = s
    · simp [hx, ih]
    · simp [hx, ih]

/-- The generic reshaping behind `extractFacts`: filtering on the
trimmed length and then trimming inside the emission step is the same as
trimming every segment first. -/
theorem filterMap_trim_reshape (f : List Char → List Char)
    (P : List Char → Bool) :
    ∀ l : List (List Char),
      ((l.filter (fun s => (f s).length > 10)).filterMap (fun s =>
          if P (f s) then some (String.mk (f s)) else none))
        = (((l.map f).filter (fun s => s.length > 10)).filter P).map String.mk := by
  intro l
  induction l with
  | nil => rfl
  | cons x l ih =>
    by_cases hl : (f x).length > 10
    · by_cases hp : P (f x)
      · simp [List.filter_cons, List.filterMap_cons, hl, hp, ih]
      · simp [List.filter_cons, List.filterMap_cons, hl, hp, ih]
    · simp [List.filter_cons, hl, ih]

/-! Section: C4: the relevance-score formula and its range -/

/-- C4: for every query and content, the score follows the formula
`min(1, matches / sqrt(|Q| * |C|) + exactBoost)` (`|Q|` the number of
distinct query tokens, `|C|` the content token count, `matches` the
content positions whose token is a query token, `exactBoost` 0.3 exactly
on a lowercased contiguous-substring hit) whenever `Q` and `C` are
nonempty; the score is 0 when `Q` or `C` is empty (the claim's own
proviso for the formula); and it always lies in `[0, 1]`. -/
theorem c4_score_formula (query content : String) :
    (((tokenize query).dedup.length ≠ 0 ∧ (tokenize content).length ≠ 0) →
      computeSimilarity query content =
        min 1 ((((tokenize content).filter
              (fun t => (tokenize query).dedup.contains t)).length : ℝ) /
            Real.sqrt (((tokenize query).dedup.length : ℝ) *
              ((tokenize content).length : ℝ)) +
          (if hasSubstr (content.toList.map Char.toLower)
              (query.toList.map Char.toLower) then (0.3 : ℝ) else 0))) ∧
    (((tokenize query).dedup.length = 0 ∨ (tokenize content).length = 0) →
      computeSimilarity query content = 0) ∧
    0 ≤ computeSimilarity query content ∧ computeSimilarity query content ≤ 1 := by
  have hbase : (0 : ℝ) ≤
      (((tokenize content).filter
          (fun t => (tokenize query).dedup.contains t)).length : ℝ) /
        Real.sqrt (((tokenize query).dedup.length : ℝ) *
          ((tokenize content).length : ℝ)) :=
    div_nonneg (Nat.cast_nonneg _) (Real.sqrt_nonneg _)
  have hboost : (0 : ℝ) ≤
      (if hasSubstr (content.toList.map Char.toLower)
          (query.toList.map Char.toLower) then (0.3 : ℝ) else 0) := by
    split <;> norm_num
  by_cases h : (tokenize query).dedup.length = 0 ∨ (tokenize content).length = 0
  · refine ⟨fun hne => absurd h (by tauto), fun _ => ?_, ?_, ?_⟩ <;>
      simp only [computeSimilarity, h, if_true] <;> norm_num
  · have hval : computeSimilarity query content =
        min 1 ((((tokenize content).filter
              (fun t => (tokenize query).dedup.contains t)).length : ℝ) /
            Real.sqrt (((tokenize query).dedup.length : ℝ) *
              ((tokenize content).length : ℝ)) +
          (if hasSubstr (content.toList.map Char.toLower)
              (query.toList.map Char.toLower) then (0.3 : ℝ) else 0)) := by
      simp only [computeSimilarity, h, if_false]
    refine ⟨fun _ => hval, fun habs => absurd habs h, ?_, ?_⟩
    · rw [hval]
      exact le_min (by norm_num) (add_nonneg hbase hboost)
    · rw [hval]
      exact min_le_left _ _

/-- Witness for C4 at a concrete input: both token sets of
`("dark mode", "I love dark mode")` are nonempty, so the formula case
applies, and the bounds hold. -/
theorem c4_score_formula_witness :
    ((tokenize "dark mode").dedup.length ≠ 0 ∧
      (tokenize "I love dark mode").length ≠ 0) ∧
    computeSimilarity "dark mode" "I love dark mode" =
      min 1 ((((tokenize "I love dark mode").filter
            (fun t => (tokenize "dark mode").dedup.contains t)).length : ℝ) /
          Real.sqrt (((tokenize "dark mode").dedup.length : ℝ) *
            ((tokenize "I love dark mode").length : ℝ)) +
        (if hasSubstr ("I love dark mode".toList.map Char.toLower)
            ("dark mode".toList.map Char.toLower) then (0.3 : ℝ) else 0)) ∧
    0 ≤ computeSimilarity "dark mode" "I love dark mode" ∧
    computeSimilarity "dark mode" "I love dark mode" ≤ 1 :=
  ⟨⟨by decide, by decide⟩,
    (c4_score_formula "dark mode" "I love dark mode").1 ⟨by decide, by decide⟩,
    (c4_score_formula "dark mode" "I love dark mode").2.2⟩

/-! Section: C6: the fact extractor -/

/-- C6: `extractFacts` splits on runs of `.`/`!`/`?`, trims, discards
trimmed segments of length at most 10, and emits the remaining ones (in
sentence order, each at most once) exactly when some preference pattern
matches; the JS per-segment loop breaks at the first matching pattern,
which coincides with `List.any` over the ordered pattern list because
the emitted value does not depend on which pattern fired.  The concrete
scenario of the spec is included. -/
theorem c6_extractFacts (content : String) :
    extractFacts content
      = ((((splitList isSentenceDelim content.toList).map trimList).filter
            (fun s => s.length > 10)).filter
            (fun s => preferencePatterns.any (fun pat => pat s))).map String.mk ∧
    extractFacts "I always drink green tea in the morning"
      = ["I always drink green tea in the morning"] := by
  constructor
  · unfold extractFacts
    exact filterMap_trim_reshape trimList
      (fun s => preferencePatterns.any (fun pat => pat s))
      (splitList isSentenceDelim content.toList)
  · decide

/-! Section: Concrete databases for counterexamples and witnesses -/

/-- A single dynamic profile fact, as extracted from the spec's concrete
scenario. -/
def factRow0 : FactRow :=
  ⟨"f1", "work", "I always drink green tea in the morning", "dynamic", 0, 0⟩

/-- A database holding only `factRow0`. -/
def dbOneFact : DB := ⟨[], [factRow0]⟩

/-- A single active memory row. -/
def memRow0 : MemoryRow := ⟨"m1", "work", "hello world", none, none, 1, 1, none⟩

/-- A database holding only `memRow0`. -/
def dbOneMemory : DB := ⟨[memRow0], []⟩

/-- The length of a filtered list is positive iff some element passes
the filter. -/
theorem filter_length_pos_iff {α : Type} (p : α → Bool) (l : List α) :
    0 < (l.filter p).length ↔ ∃ a ∈ l, p a := by
  rw [← List.countP_eq_length_filter]
  exact List.countP_pos_iff

/-! Section: C1: promoting twice -/

/-- C1 counterexample: with a single matching dynamic fact row and no
insertions in between, the *second* `promote` call still answers
`promoted = true` (the UPDATE's WHERE clause tests only
`(container_tag, fact)`, never `fact_type`, and SQLite's `changes`
counts matched rows), contradicting the claimed `true` then `false`. -/
theorem c1_counterexample :
    (promoteEndpoint dbOneFact "work" "I always drink green tea in the morning" 1).2
      = true ∧
    (promoteEndpoint
        (promoteEndpoint dbOneFact "work" "I always drink green tea in the morning" 1).1
        "work" "I always drink green tea in the morning" 2).2 = true :=
  ⟨by decide, by decide⟩

/-- C1 amended: `didPromote` is true iff some row of the container has
the given fact text, regardless of its current `fact_type`; a second
call therefore returns the same boolean as the first (not `false`), and
every matching row ends up `static`. -/
theorem c1_promote_reflects_matching_rows (db : DB) (tag fact : String)
    (now now2 : Nat) :
    ((promoteEndpoint db tag fact now).2 = true
        ↔ ∃ r ∈ db.facts, r.containerTag = tag ∧ r.fact = fact) ∧
    (promoteEndpoint (promoteEndpoint db tag fact now).1 tag fact now2).2
      = (promoteEndpoint db tag fact now).2 ∧
    (∀ r ∈ ((promoteEndpoint db tag fact now).1).facts,
        r.containerTag = tag → r.fact = fact → r.factType = "static") := by
  have hfix : ∀ r : FactRow,
      promoteHit tag fact (promoteUpd tag fact now r) = promoteHit tag fact r := by
    intro r
    by_cases h : promoteHit tag fact r = true
    · have h' := h
      unfold promoteHit at h'
      simp only [Bool.and_eq_true, decide_eq_true_eq] at h'
      simp [promoteUpd, promoteHit, h, h'.1, h'.2]
    · simp [promoteUpd, h]
  refine ⟨?_, ?_, ?_⟩
  · simp only [promoteEndpoint, decide_eq_true_eq, gt_iff_lt]
    rw [filter_length_pos_iff]
    apply exists_congr
    intro r
    simp [promoteHit, and_assoc]
  · have hlen : ((db.facts.map (promoteUpd tag fact now)).filter
          (promoteHit tag fact)).length
        = (db.facts.filter (promoteHit tag fact)).length := by
      rw [List.filter_map, List.length_map]
      congr 1
      apply List.filter_congr
      intro r _
      exact hfix r
    simp [promoteEndpoint, hlen]
  · intro r hr h1 h2
    simp only [promoteEndpoint, List.mem_map] at hr
    obtain ⟨orig, _, rfl⟩ := hr
    by_cases h : promoteHit tag fact orig = true
    · simp [promoteUpd, h]
    · have horig : promoteUpd tag fact now orig = orig := by simp [promoteUpd, h]
      rw [horig] at h1 h2
      exact absurd (by simp [promoteHit, h1, h2]) h

/-- C1 witness: the amended theorem applied to the one-fact database;
the matching row makes the first call answer `true`. -/
theorem c1_promote_reflects_matching_rows_witness :
    (promoteEndpoint dbOneFact "work" "I always drink green tea in the morning" 1).2
      = true :=
  (c1_promote_reflects_matching_rows dbOneFact "work"
      "I always drink green tea in the morning" 1 2).1.mpr
    ⟨factRow0, by decide, by decide, by decide⟩

/-! Section: C2: the forget boolean -/

/-- C2 counterexample: forgetting a nonexistent id in the empty database
affects no row, yet the response still reports `forgotten: true` (the id
branch of the handler never consults the affected count), refuting
"`forgotten` is true iff at least one active row was marked". -/
theorem c2_counterexample :
    (forgetEndpoint emptyDB (some "work") (some "missing-id") none 5).2
      = ForgetResponse.ok "missing-id" true ∧
    (forgetEndpoint emptyDB (some "work") (some "missing-id") none 5).1 = emptyDB :=
  ⟨by decide, by decide⟩

/-- C2 amended: with an id supplied, the response is always
`forgotten: true`, whether or not any row matched (a no-match call
leaves the store unchanged and raises no error); only the
forget-by-content branch reports "no rows affected" through the boolean,
which is true iff some active row of the container has exactly that
content. -/
theorem c2_forget_boolean (db : DB) (ct : Option String) (i c : String)
    (now : Nat) :
    (i ≠ "" → (forgetEndpoint db ct (some i) none now).2
        = ForgetResponse.ok i true) ∧
    (i ≠ "" →
      (∀ m ∈ db.memories, ¬(m.id = i ∧ tagMatches m.containerTag ct = true)) →
      (forgetEndpoint db ct (some i) none now).1 = db) ∧
    (c ≠ "" →
      ((forgetEndpoint db ct none (some c) now).2
          = ForgetResponse.ok "content-match" true
        ↔ ∃ m ∈ db.memories,
            m.content = c ∧ tagMatches m.containerTag ct = true ∧
              m.forgottenAt = none)) := by
  refine ⟨fun hi => ?_, fun hi hnone => ?_, fun hc => ?_⟩
  · simp [forgetEndpoint, truthy, hi, forgetById]
  · obtain ⟨mems, facts⟩ := db
    simp only [forgetEndpoint, truthy, hi, decide_True, forgetById, Option.getD]
    simp only [ne_eq, hi, not_false_iff, decide_True, if_true, DB.mk.injEq, and_true]
    rw [List.map_congr_left, List.map_id]
    intro m hm
    have := hnone m hm
    have hfalse : (m.id = i && tagMatches m.containerTag ct) = false := by
      by_contra hcon
      rw [Bool.not_eq_false, Bool.and_eq_true, decide_eq_true_eq] at hcon
      exact this ⟨hcon.1, hcon.2⟩
    simp [hfalse]
  · simp only [forgetEndpoint, truthy, forgetByContent, Option.getD]
    simp only [ne_eq, hc, not_false_iff, decide_True, if_true, decide_False,
      Bool.false_eq_true, if_false, ForgetResponse.ok.injEq, true_and,
      decide_eq_true_eq]
    rw [gt_iff_lt, filter_length_pos_iff]
    constructor
    · rintro ⟨m, hm, hp⟩
      refine ⟨m, hm, ?_⟩
      simpa [and_assoc] using hp
    · rintro ⟨m, hm, h1, h2, h3⟩
      exact ⟨m, hm, by simp [h1, h2, h3]⟩

/-- C2 witness: the amended theorem at concrete inputs — forgetting id
`"m1"` under the wrong container still answers `true` while changing
nothing, and forgetting by content answers `true` exactly because an
active matching row exists. -/
theorem c2_forget_boolean_witness :
    (forgetEndpoint dbOneMemory (some "nope") (some "m1") none 7).2
      = ForgetResponse.ok "m1" true ∧
    (forgetEndpoint dbOneMemory (some "nope") (some "m1") none 7).1
      = dbOneMemory ∧
    (forgetEndpoint dbOneMemory (some "work") none (some "hello world") 7).2
      = ForgetResponse.ok "content-match" true :=
  ⟨(c2_forget_boolean dbOneMemory (some "nope") "m1" "x" 7).1 (by decide),
   (c2_forget_boolean dbOneMemory (some "nope") "m1" "x" 7).2.1 (by decide)
     (by decide),
   ((c2_forget_boolean dbOneMemory (some "work") "m1" "hello world" 7).2.2
       (by decide)).mpr
     ⟨memRow0, by decide, by decide, by decide, by decide⟩⟩

/-! Section: C3: bulk-delete validation -/

/-- C3 counterexample: an empty `ids` array is truthy and passes the
`!ids || !Array.isArray(ids)` check, so no 400 `ValidationError` is
produced; the empty `IN ()` list is accepted by SQLite and matches zero
rows, so the request succeeds with `deleted: 0` and no rows are
deleted — a 200 success, contradicting the claimed `ValidationError`. -/
theorem c3_counterexample :
    (deleteBulkEndpoint dbOneMemory (IdsField.arr [])).2
      = BulkResponse.ok 0 ∧
    (deleteBulkEndpoint dbOneMemory (IdsField.arr [])).1 = dbOneMemory :=
  ⟨by decide, by decide⟩

/-- C3 amended: a missing or non-array `ids` fails with a 400
`ValidationError` and deletes nothing; an *empty* array, however, is not
rejected — it passes validation, the empty `IN ()` list matches zero
rows, and the request succeeds with `deleted: 0`, deleting nothing; a
non-empty array hard-deletes exactly the rows whose id is listed. -/
theorem c3_deleteBulk_behaviour (db : DB) (l : List String) :
    deleteBulkEndpoint db IdsField.missing
      = (db, BulkResponse.badRequest "ids array is required") ∧
    deleteBulkEndpoint db IdsField.notArray
      = (db, BulkResponse.badRequest "ids array is required") ∧
    deleteBulkEndpoint db (IdsField.arr [])
      = (db, BulkResponse.ok 0) ∧
    deleteBulkEndpoint db (IdsField.arr l)
      = (⟨db.memories.filter (fun m => !l.contains m.id), db.facts⟩,
         BulkResponse.ok (db.memories.filter (fun m => l.contains m.id)).length) := by
  refine ⟨rfl, rfl, ?_, rfl⟩
  simp [deleteBulkEndpoint]

/-- C3 witness: the amended theorem at a concrete non-empty id list,
which hard-deletes the only row. -/
theorem c3_deleteBulk_behaviour_witness :
    deleteBulkEndpoint dbOneMemory (IdsField.arr ["m1"])
      = (⟨[], []⟩, BulkResponse.ok 1) := by
  rw [(c3_deleteBulk_behaviour dbOneMemory ["m1"]).2.2.2]
  decide

/-! Section: C9: threshold monotonicity of the profile query -/

/-- C9: for a fixed query, container and store, raising the profile
`threshold` never increases the number of returned results: the filter
with the larger floor keeps a sublist of what the smaller floor keeps,
and sorting and the cap of 10 preserve that length inequality. -/
theorem c9_threshold_monotone (db : DB) (tag q : String) (t1 t2 : ℝ)
    (h : t1 ≤ t2) :
    (profileSearch db tag q t2).length ≤ (profileSearch db tag q t1).length := by
  simp only [profileSearch]
  rw [List.length_take, List.length_take, List.length_insertionSort,
    List.length_insertionSort]
  refine min_le_min le_rfl (List.Sublist.length_le
    (List.monotone_filter_right _ ?_))
  intro a ha
  simp only [decide_eq_true_eq] at ha ⊢
  exact lt_of_le_of_lt h ha

/-- C9 witness: thresholds 0.1 ≤ 0.2 on a concrete store. -/
theorem c9_threshold_monotone_witness :
    (0.1 : ℝ) ≤ 0.2 ∧
    (profileSearch emptyDB "default" "tea" 0.2).length
      ≤ (profileSearch emptyDB "default" "tea" 0.1).length :=
  ⟨by norm_num, c9_threshold_monotone emptyDB "default" "tea" 0.1 0.2 (by norm_num)⟩

/-! Section: C10: the `total` field of the search response -/

/-- A substring hit forces a similarity of at least the exact boost 0.3
(when both token collections are nonempty). -/
theorem boost_le_similarity (q c : String)
    (hq : (tokenize q).dedup.length ≠ 0) (hc : (tokenize c).length ≠ 0)
    (hb : hasSubstr (c.toList.map Char.toLower) (q.toList.map Char.toLower)
      = true) :
    (0.3 : ℝ) ≤ computeSimilarity q c := by
  have hbase : (0 : ℝ) ≤
      (((tokenize c).filter (fun t => (tokenize q).dedup.contains t)).length : ℝ) /
        Real.sqrt (((tokenize q).dedup.length : ℝ) * ((tokenize c).length : ℝ)) :=
    div_nonneg (Nat.cast_nonneg _) (Real.sqrt_nonneg _)
  simp only [computeSimilarity]
  rw [if_neg (not_or.mpr ⟨hq, hc⟩), if_pos hb]
  exact le_min (by norm_num) (by linarith)

/-- Two active rows with identical content in the default container. -/
def memRowA : MemoryRow := ⟨"a1", "default", "hello", none, none, 2, 2, none⟩

/-- See `memRowA`. -/
def memRowB : MemoryRow := ⟨"b2", "default", "hello", none, none, 1, 1, none⟩

/-- A database with the two rows `memRowA`, `memRowB`. -/
def dbTwoHello : DB := ⟨[memRowA, memRowB], []⟩

/-- C10: the `total` field always equals the length of the returned
`results` array (after the relevance filter *and* the truncation to
`limit`); concretely, on a store where two memories beat the floor and
`limit = 1`, `total` is 1 while the pre-truncation count is 2, so it is
not the count of everything above the floor. -/
theorem c10_total_counts_truncated_results :
    (∀ (db : DB) (q query ct : Option String) (cts : Option (List String))
        (limit : Nat),
      (searchEndpoint db q query ct cts limit).total
        = (searchEndpoint db q query ct cts limit).results.length) ∧
    (searchEndpoint dbTwoHello (some "hello") none (some "default") none 1).total
      = 1 ∧
    (((selectActiveDesc dbTwoHello "default" 1000).map (toScored "hello")).filter
        (fun r => (0.05 : ℝ) < r.similarity)).length = 2 := by
  have htot : ∀ (db : DB) (q query ct : Option String)
      (cts : Option (List String)) (limit : Nat),
      (searchEndpoint db q query ct cts limit).total
        = (searchEndpoint db q query ct cts limit).results.length := by
    intro db q query ct cts limit
    simp only [searchEndpoint]
    split
    · rfl
    · split
      · rfl
      · rfl
  have hsel : selectActiveDesc dbTwoHello "default" 1000 = [memRowA, memRowB] := by
    decide
  have hS : (0.05 : ℝ) < computeSimilarity "hello" "hello" :=
    lt_of_lt_of_le (by norm_num)
      (boost_le_similarity "hello" "hello" (by decide) (by decide) (by decide))
  have hrA : (toScored "hello" memRowA).similarity
      = computeSimilarity "hello" "hello" := rfl
  have hrB : (toScored "hello" memRowB).similarity
      = computeSimilarity "hello" "hello" := rfl
  have hfil : ((selectActiveDesc dbTwoHello "default" 1000).map
        (toScored "hello")).filter (fun r => (0.05 : ℝ) < r.similarity)
      = [toScored "hello" memRowA, toScored "hello" memRowB] := by
    rw [hsel]
    simp [List.filter_cons, hrA, hrB, hS]
  refine ⟨htot, ?_, by rw [hfil]; rfl⟩
  rw [htot]
  have hres : (searchEndpoint dbTwoHello (some "hello") none (some "default")
      none 1).results = searchCore dbTwoHello "hello" "default" 1 := by
    simp [searchEndpoint, truthy, resolveTag, orTruthy]
  rw [hres]
  simp only [searchCore]
  rw [List.length_take, List.length_insertionSort, hfil]
  rfl

/-! Section: C5: the search pipeline -/

/-- C5: for a non-empty query the endpoint returns `searchCore`, whose
output (i) has at most `limit` entries, (ii) is ordered by descending
similarity, (iii) only contains entries scoring strictly above the 0.05
floor, (iv) is drawn (as a sub-permutation) from the scored bounded
working set of active memories of the container, (v) is a permutation of
*all* the qualifying entries whenever they fit within `limit` (so the
results are exactly the qualifying memories up to truncation), and
(vi) lists every similarity tie class in the order of the
recency-ordered input (the sort is stable, so ties stay most-recent
first). -/
theorem c5_search_pipeline (db : DB) (sq tag : String) (qq ct : Option String)
    (cts : Option (List String)) (limit : Nat) :
    (sq ≠ "" →
      (searchEndpoint db (some sq) qq ct cts limit).results
        = searchCore db sq (resolveTag ct cts) limit) ∧
    (searchCore db sq tag limit).length ≤ limit ∧
    List.Pairwise simDesc (searchCore db sq tag limit) ∧
    (∀ r ∈ searchCore db sq tag limit, (0.05 : ℝ) < r.similarity) ∧
    List.Subperm (searchCore db sq tag limit)
      (((selectActiveDesc db tag 1000).map (toScored sq)).filter
        (fun r => (0.05 : ℝ) < r.similarity)) ∧
    ((((selectActiveDesc db tag 1000).map (toScored sq)).filter
          (fun r => (0.05 : ℝ) < r.similarity)).length ≤ limit →
      (searchCore db sq tag limit).Perm
        (((selectActiveDesc db tag 1000).map (toScored sq)).filter
          (fun r => (0.05 : ℝ) < r.similarity))) ∧
    (∀ s : ℝ, ∃ m,
      (searchCore db sq tag limit).filter (fun r => r.similarity = s)
        = ((((selectActiveDesc db tag 1000).map (toScored sq)).filter
              (fun r => (0.05 : ℝ) < r.similarity)).filter
              (fun r => r.similarity = s)).take m) := by
  refine ⟨fun hsq => ?_, ?_, ?_, ?_, ?_, fun hfit => ?_, fun s => ?_⟩
  · simp [searchEndpoint, truthy, hsq]
  · simp only [searchCore]
    rw [List.length_take]
    exact min_le_left _ _
  · exact List.Pairwise.sublist (List.take_sublist _ _)
      (List.sorted_insertionSort simDesc _)
  · intro r hr
    simp only [searchCore] at hr
    have h1 := (List.mem_insertionSort simDesc).mp (List.take_subset _ _ hr)
    exact of_decide_eq_true (List.mem_filter.mp h1).2
  · exact List.Subperm.trans
      (List.Sublist.subperm (List.take_sublist _ _))
      (List.Perm.subperm (List.perm_insertionSort simDesc _))
  · simp only [searchCore]
    rw [List.take_of_length_le (by rw [List.length_insertionSort]; exact hfit)]
    exact List.perm_insertionSort simDesc _
  · simp only [searchCore]
    obtain ⟨m, hm⟩ := filter_take_exists (fun r => decide (r.similarity = s))
      limit (List.insertionSort simDesc
        (((selectActiveDesc db tag 1000).map (toScored sq)).filter
          (fun r => (0.05 : ℝ) < r.similarity)))
    exact ⟨m, by rw [hm, filter_key_insertionSort]⟩

/-- C5 witness: the endpoint equation and the no-truncation permutation
case, at a concrete store and a non-empty query. -/
theorem c5_search_pipeline_witness :
    ("tea" : String) ≠ "" ∧
    (searchEndpoint emptyDB (some "tea") none (some "work") none 10).results
      = searchCore emptyDB "tea" (resolveTag (some "work") none) 10 ∧
    (searchCore emptyDB "tea" "work" 10).Perm
      (((selectActiveDesc emptyDB "work" 1000).map (toScored "tea")).filter
        (fun r => (0.05 : ℝ) < r.similarity)) :=
  ⟨by decide,
   (c5_search_pipeline emptyDB "tea" "work" none (some "work") none 10).1
     (by decide),
   (c5_search_pipeline emptyDB "tea" "work" none (some "work") none
       10).2.2.2.2.2.1 (by simp [selectActiveDesc, emptyDB])⟩

/-! Section: Source-tracing lemmas for search and listing -/

/-- Every search result is the scored image of an active row of the
requested container. -/
theorem mem_searchCore_source {db : DB} {sq tag : String} {limit : Nat}
    {r : SearchResult} (hr : r ∈ searchCore db sq tag limit) :
    ∃ m ∈ db.memories, activeIn tag m = true ∧ r = toScored sq m := by
  simp only [searchCore] at hr
  have h1 := (List.mem_insertionSort simDesc).mp (List.take_subset _ _ hr)
  have h2 := (List.mem_filter.mp h1).1
  obtain ⟨m, hm, rfl⟩ := List.mem_map.mp h2
  simp only [selectActiveDesc] at hm
  have hm2 := (List.mem_insertionSort createdDesc).mp (List.take_subset _ _ hm)
  have hm3 := List.mem_filter.mp hm2
  exact ⟨m, hm3.1, hm3.2, rfl⟩

/-- Every listed document is the image of an active row of one of the
requested containers. -/
theorem mem_listDocuments_source {db : DB} {cts : Option (List String)}
    {limit page : Nat} {d : DocRow}
    (hd : d ∈ (listDocuments db cts limit page).1) :
    ∃ m ∈ db.memories, activeInTags (cts.getD ["default"]) m = true ∧
      d = ⟨m.id, m.content, m.createdAt, m.updatedAt⟩ := by
  simp only [listDocuments] at hd
  obtain ⟨m, hm, rfl⟩ := List.mem_map.mp hd
  have h1 := (List.mem_insertionSort createdDesc).mp
    (List.drop_subset _ _ (List.take_subset _ _ hm))
  have h2 := List.mem_filter.mp h1
  exact ⟨m, h2.1, h2.2, rfl⟩

/-! Section: C7: soft-delete visibility -/

/-- C7: after `forget(tag, id)` marks a stored memory (the row with that
primary-key id, living in container `tag`), no search result and no
listed document carries that id, and the active rows counted by
`statsMemories` exclude it; yet the table keeps a row with that id (same
content, `forgottenAt` set), so the bulk hard delete still matches it
(`deleteBulk` ignores the forgotten state) and removes it, as does the
container wipe. -/
theorem c7_soft_delete_visibility (db : DB) (m : MemoryRow) (i tag : String)
    (now : Nat) (hm : m ∈ db.memories) (hid : m.id = i)
    (htag : m.containerTag = tag)
    (huniq : ∀ m' ∈ db.memories, m'.id = i → m'.containerTag = tag) :
    (∀ (q tag2 : String) (limit : Nat) (r : SearchResult),
      r ∈ searchCore (forgetById db i (some tag) now).1 q tag2 limit →
        r.id ≠ i) ∧
    (∀ (cts : Option (List String)) (limit page : Nat) (d : DocRow),
      d ∈ (listDocuments (forgetById db i (some tag) now).1 cts limit page).1 →
        d.id ≠ i) ∧
    (∀ m' ∈ (forgetById db i (some tag) now).1.memories.filter
        (fun x => x.forgottenAt = none), m'.id ≠ i) ∧
    (forgetById db i (some tag) now).1.memories.length = db.memories.length ∧
    (∃ m' ∈ (forgetById db i (some tag) now).1.memories,
        m'.id = i ∧ m'.containerTag = tag ∧ m'.content = m.content ∧
          m'.forgottenAt = some now) ∧
    0 < ((forgetById db i (some tag) now).1.memories.filter
        (fun x => [i].contains x.id)).length ∧
    (∀ m' ∈ (deleteBulkEndpoint (forgetById db i (some tag) now).1
        (IdsField.arr [i])).1.memories, m'.id ≠ i) ∧
    (∀ m' ∈ (wipeContainer (forgetById db i (some tag) now).1 tag).memories,
        m'.containerTag ≠ tag) := by
  have hkey : ∀ m' ∈ (forgetById db i (some tag) now).1.memories,
      m'.id = i → m'.forgottenAt = some now := by
    intro m' hm' hid'
    simp only [forgetById, List.mem_map] at hm'
    obtain ⟨orig, horig, rfl⟩ := hm'
    by_cases h : (orig.id = i && tagMatches orig.containerTag (some tag)) = true
    · simp only [h, if_true]
    · rw [if_neg (by simpa using h)] at hid' ⊢
      have h1 : orig.containerTag = tag := huniq orig horig hid'
      exact absurd (by simp [tagMatches, hid', h1]) h
  refine ⟨?_, ?_, ?_, ?_, ?_, ?_, ?_, ?_⟩
  · intro q tag2 limit r hr hri
    obtain ⟨m', hm', hact, rfl⟩ := mem_searchCore_source hr
    have hforg := hkey m' hm' hri
    simp only [activeIn, Bool.and_eq_true, decide_eq_true_eq] at hact
    rw [hact.2] at hforg
    exact Option.noConfusion hforg
  · intro cts limit page d hd hdi
    obtain ⟨m', hm', hact, rfl⟩ := mem_listDocuments_source hd
    have hforg := hkey m' hm' hdi
    simp only [activeInTags, Bool.and_eq_true, decide_eq_true_eq] at hact
    rw [hact.2] at hforg
    exact Option.noConfusion hforg
  · intro m' hm' hmi
    have h1 := List.mem_filter.mp hm'
    have hforg := hkey m' h1.1 hmi
    have h2 : m'.forgottenAt = none := by simpa using h1.2
    rw [h2] at hforg
    exact Option.noConfusion hforg
  · simp [forgetById]
  · refine ⟨{ m with forgottenAt := some now }, ?_, hid, htag, rfl, rfl⟩
    have : (if (m.id = i && tagMatches m.containerTag (some tag)) = true
        then { m with forgottenAt := some now } else m)
        = { m with forgottenAt := some now } := by
      rw [if_pos (by simp [tagMatches, hid, htag])]
    simp only [forgetById]
    exact this ▸ List.mem_map_of_mem _ hm
  · rw [filter_length_pos_iff]
    refine ⟨{ m with forgottenAt := some now }, ?_, by simp [hid]⟩
    have : (if (m.id = i && tagMatches m.containerTag (some tag)) = true
        then { m with forgottenAt := some now } else m)
        = { m with forgottenAt := some now } := by
      rw [if_pos (by simp [tagMatches, hid, htag])]
    simp only [forgetById]
    exact this ▸ List.mem_map_of_mem _ hm
  · intro m' hm' hmi
    simp only [deleteBulkEndpoint] at hm'
    have h1 := (List.mem_filter.mp hm').2
    rw [hmi] at h1
    simp at h1
  · intro m' hm' hmt
    simp only [wipeContainer] at hm'
    have h1 := (List.mem_filter.mp hm').2
    rw [hmt] at h1
    simp at h1

/-- C7 witness: the theorem at the one-memory store — the marked row
keeps its id, container and content, with `forgottenAt` set. -/
theorem c7_soft_delete_visibility_witness :
    memRow0 ∈ dbOneMemory.memories ∧
    (forgetById dbOneMemory "m1" (some "work") 9).1.memories.length
      = dbOneMemory.memories.length ∧
    (∃ m' ∈ (forgetById dbOneMemory "m1" (some "work") 9).1.memories,
        m'.id = "m1" ∧ m'.containerTag = "work" ∧ m'.content = memRow0.content ∧
          m'.forgottenAt = some 9) :=
  ⟨by decide,
   (c7_soft_delete_visibility dbOneMemory memRow0 "m1" "work" 9 (by decide)
       (by decide) (by decide) (by decide)).2.2.2.1,
   (c7_soft_delete_visibility dbOneMemory memRow0 "m1" "work" 9 (by decide)
       (by decide) (by decide) (by decide)).2.2.2.2.1⟩

/-! Section: C8: container isolation -/

/-- C8: a memory created in container `A` (under a fresh id) never shows
up in search results or document listings scoped to a different
container `B`: results scoped to `B` are drawn from rows whose tag is
`B`, while the new row's tag is `A`, and all other rows predate the
insert and so cannot carry the fresh id. -/
theorem c8_container_isolation (db : DB) (content A B newId : String)
    (metadata customId : Option String) (factId : Nat → String) (now : Nat)
    (hA : A ≠ "") (hcontent : content ≠ "") (hAB : A ≠ B)
    (hfresh : ∀ m ∈ db.memories, m.id ≠ newId) :
    (∀ (q : String) (limit : Nat) (r : SearchResult),
      r ∈ searchCore
          (addEndpoint db (some content) (some A) none metadata customId
            newId factId now).1 q B limit →
        r.id ≠ newId) ∧
    (∀ (limit page : Nat) (d : DocRow),
      d ∈ (listDocuments
          (addEndpoint db (some content) (some A) none metadata customId
            newId factId now).1 (some [B]) limit page).1 →
        d.id ≠ newId) := by
  have hadd : (addEndpoint db (some content) (some A) none metadata customId
      newId factId now).1.memories
      = db.memories ++ [⟨newId, A, content, metadata, customId, now, now, none⟩] := by
    simp [addEndpoint, truthy, hcontent, resolveTag, orTruthy, hA]
  constructor
  · intro q limit r hr hri
    obtain ⟨m', hm', hact, rfl⟩ := mem_searchCore_source hr
    rw [hadd] at hm'
    simp only [activeIn, Bool.and_eq_true, decide_eq_true_eq] at hact
    rcases List.mem_append.mp hm' with hold | hnew
    · exact hfresh m' hold hri
    · have : m' = ⟨newId, A, content, metadata, customId, now, now, none⟩ := by
        simpa using hnew
      rw [this] at hact
      exact hAB hact.1
  · intro limit page d hd hdi
    obtain ⟨m', hm', hact, rfl⟩ := mem_listDocuments_source hd
    rw [hadd] at hm'
    simp only [Option.getD, activeInTags, Bool.and_eq_true,
      List.contains_cons, List.contains_nil, Bool.or_false, beq_iff_eq] at hact
    rcases List.mem_append.mp hm' with hold | hnew
    · exact hfresh m' hold hdi
    · have : m' = ⟨newId, A, content, metadata, customId, now, now, none⟩ := by
        simpa using hnew
      rw [this] at hact
      exact hAB hact.1

/-- C8 witness: creating in `"work"` and searching/listing `"home"` on a
concrete store never surfaces the fresh id. -/
theorem c8_container_isolation_witness :
    ("work" : String) ≠ "home" ∧
    (∀ (r : SearchResult),
      r ∈ searchCore
          (addEndpoint emptyDB (some "I like green tea a lot") (some "work")
            none none none "id9" (fun _ => "f0") 3).1 "tea" "home" 10 →
        r.id ≠ "id9") :=
  ⟨by decide,
   fun r hr =>
    (c8_container_isolation emptyDB "I like green tea a lot" "work" "home"
        "id9" none none (fun _ => "f0") 3 (by decide) (by decide) (by decide)
        (by decide)).1 "tea" 10 r hr⟩

end LocalSupermemory
